import Mathlib

/-!
Verification of the transcript-scoring heuristic of the Interview-Labs
repository.

The repository contains three copies of the heuristic:
* `analyzeRealSpeech` in `src/api/analyze.js` (lines 233-370), with its
  helper `findFillerTimestamp` (lines 508-517);
* `analyzeRealTranscription` in `src/server.js` (lines 132-270), with its
  helper `findTimestampForIssue` (lines 272-286);
* `analyzeTranscription` in `src/server.js` (lines 954-1044), a simplified
  variant.

Each is embedded below as a Lean function over a `Transcript` structure.
JavaScript machine numbers are modelled by `ℚ` (every constant in the
scoring path is a small multiple of 1/2, exactly representable), strings
by `String`, and the word-boundary regex counting by an explicit scanner
that follows the JavaScript `String.prototype.match(/.../gi)` semantics
for the specific regexes of the source: scan left to right, at each
position try the alternatives in source order (a match requires a word
boundary on both sides), count the match and resume after it, otherwise
advance one character.
-/

set_option maxRecDepth 100000

namespace InterviewLabs

/-- A timed span of the transcript.  Source attributes `start`, `end`,
`text` (`end` is a Lean keyword, rendered `stop`). -/
structure Segment where
  start : ℚ
  stop : ℚ
  text : String
deriving Repr, DecidableEq

/-- A transcript: full text plus optional ordered list of segments. -/
structure Transcript where
  text : String
  segments : List Segment
deriving Repr, DecidableEq

/-- One timestamped issue of the produced analysis. -/
structure Mistake where
  timestamp : String
  text : String
deriving Repr, DecidableEq

/-- The terminal output of the heuristic. -/
structure AnalysisResult where
  rating : ℚ
  mistakes : List Mistake
  tips : List String
  summary : String
deriving Repr, DecidableEq

/-- The lexical feature counts extracted from the transcript text
(`wordCount`, `technicalTerms`, `confidenceWords`, `fillerWords`,
`specificMetrics`, `questionWords` in the source). -/
structure Features where
  wordCount : Nat
  technicalTerms : Nat
  confidenceWords : Nat
  fillerWords : Nat
  specificMetrics : Nat
  questionWords : Nat
deriving Repr, DecidableEq

/-! ## Word-boundary regex counting -/

/-- Lower-cased character list of a string, modelling
`text.toLowerCase()` (the source texts are ASCII). -/
def lowerChars (text : String) : List Char :=
  text.toList.map Char.toLower

/-- JavaScript regex word character (`\w` = `[A-Za-z0-9_]`). -/
def isWordChar (c : Char) : Bool :=
  c.isAlphanum || c == '_'

/-- Does the alternative `alt` match at the current position?  `prev` is
the character just before the position (`none` at the start of the text).
Every vocabulary alternative of the source starts and ends with a word
character, so the two `\b` anchors require a non-word character (or the
text edge) on each side. -/
def matchAltHere (prev : Option Char) (alt : List Char) (s : List Char) : Bool :=
  (match prev with
   | none => true
   | some p => !isWordChar p)
  && alt.isPrefixOf s
  && (match s.drop alt.length with
      | [] => true
      | c :: _ => !isWordChar c)

/-- First alternative (in source order) matching at the current position;
returns the length of the match. -/
def firstAltLen (alts : List (List Char)) (prev : Option Char) (s : List Char) :
    Option Nat :=
  match alts with
  | [] => none
  | a :: rest =>
    if matchAltHere prev a s then some a.length else firstAltLen rest prev s

/-- Global scan of `String.prototype.match(/.../g)`: count matches of the
position matcher `m`, resuming after each match, otherwise advancing one
character.  `fuel` is an upper bound on the number of steps (the text
length suffices: every step consumes at least one character). -/
def scanWith (m : Option Char → List Char → Option Nat) :
    Nat → Option Char → List Char → Nat
  | 0, _, _ => 0
  | _ + 1, _, [] => 0
  | fuel + 1, prev, c :: rest =>
    match m prev (c :: rest) with
    | some n =>
      1 + scanWith m fuel (((c :: rest).take n).getLast?) ((c :: rest).drop n)
    | none => scanWith m fuel (some c) rest

/-- Count of matches of the matcher `m` over the lower-cased text
(the source regexes all carry the `i` flag). -/
def countMatches (m : Option Char → List Char → Option Nat) (text : String) : Nat :=
  let s := lowerChars text
  scanWith m s.length none s

/-- Count of whole-word occurrences of any term of `vocab`, alternatives
tried in list order: `text.match(/\b(v1|v2|...)\b/gi)`. -/
def countVocab (vocab : List String) (text : String) : Nat :=
  countMatches (firstAltLen (vocab.map String.toList)) text

/-- Length of the leading run of characters satisfying `p`. -/
def leadCount (p : Char → Bool) : List Char → Nat
  | c :: rest => if p c then 1 + leadCount p rest else 0
  | [] => 0

/-- The unit set of the specific-metrics regex of the source
(`analyze.js` line 281 = `server.js` line 180). -/
def metricUnits : List String :=
  ["percent", "times", "years", "months", "weeks", "days", "users",
   "customers", "projects", "team", "members", "million", "thousand",
   "hours", "dollars", "revenue", "growth", "reduction", "increase",
   "decrease", "improvement"]

/-- First metric unit matching as a literal at the current position,
followed by a word boundary (every unit ends with a letter, so the
boundary requires a non-word character or the end of the text). -/
def matchUnitLen (units : List (List Char)) (s : List Char) : Option Nat :=
  match units with
  | [] => none
  | u :: rest =>
    if u.isPrefixOf s
        && (match s.drop u.length with
            | [] => true
            | c :: _ => !isWordChar c) then
      some u.length
    else matchUnitLen rest s

/-- Position matcher for `\b(\d+%|\d+\s*(percent|times|...))\b`.
`\d+` and `\s*` are greedy and cannot usefully backtrack here (shortening
`\d+` leaves a digit in front of `%`/a unit letter, shortening `\s*`
leaves a space), so the match is: maximal digit run, then either `%`
followed by `\b` (after the non-word `%` a boundary needs a following
word character), or maximal whitespace run and a unit followed by `\b`. -/
def matchMetricHere (prev : Option Char) (s : List Char) : Option Nat :=
  if (match prev with
      | none => true
      | some p => !isWordChar p) then
    let d := leadCount Char.isDigit s
    if d = 0 then none
    else
      let s1 := s.drop d
      let percentCase : Option Nat :=
        match s1 with
        | '%' :: rest =>
          if (match rest with
              | c :: _ => isWordChar c
              | [] => false) then some (d + 1) else none
        | _ => none
      match percentCase with
      | some n => some n
      | none =>
        let sp := leadCount Char.isWhitespace s1
        match matchUnitLen (metricUnits.map String.toList) (s1.drop sp) with
        | some u => some (d + sp + u)
        | none => none
  else none

/-- Source `specificMetrics` count (`analyze.js` line 281). -/
def countMetrics (text : String) : Nat :=
  countMatches matchMetricHere text

/-- Substring test over character lists, used to model
`String.prototype.includes`. -/
def containsSub (needle hay : List Char) : Bool :=
  hay.tails.any (fun t => needle.isPrefixOf t)

/-- JavaScript `s.toLowerCase().includes(key)` for an already
lower-case `key`. -/
def lowerIncludes (s key : String) : Bool :=
  containsSub key.toList (lowerChars s)

/-- Source `fieldLower.includes(key)` where
`fieldLower = field.toLowerCase()`. -/
def fieldContains (field key : String) : Bool :=
  lowerIncludes field key

/-! ## Vocabularies (in source order) -/

/-- Technical-vocabulary set of `analyze.js` line 275 = `server.js`
line 174. -/
def technicalVocabFull : List String :=
  ["javascript", "react", "node", "python", "java", "database", "api",
   "system", "software", "code", "programming", "development", "framework",
   "library", "algorithm", "data", "server", "frontend", "backend",
   "fullstack", "git", "docker", "aws", "cloud", "microservices",
   "testing", "debugging", "deployment", "scalability", "performance",
   "security", "architecture", "html", "css", "typescript", "angular",
   "vue", "spring", "hibernate", "mysql", "postgresql", "mongodb",
   "redis", "kubernetes", "devops", "ci", "cd", "agile", "scrum"]

/-- Confidence-vocabulary set of `analyze.js` line 277 = `server.js`
line 176. -/
def confidenceVocabFull : List String :=
  ["successfully", "achieved", "led", "implemented", "improved",
   "optimized", "designed", "developed", "managed", "created", "built",
   "delivered", "solved", "experience", "expertise", "proficient",
   "skilled", "accomplished", "responsible", "contributed",
   "collaborated", "completed", "established", "enhanced", "streamlined",
   "automated", "integrated", "architected"]

/-- Filler-vocabulary set of `analyze.js` line 279 = `server.js`
line 178. -/
def fillerVocabFull : List String :=
  ["um", "uh", "like", "you know", "actually", "basically", "sort of",
   "kind of", "well", "so", "right", "okay", "yeah", "hmm", "er", "ah"]

/-- Question-word set of `analyze.js` line 283 = `server.js` line 182. -/
def questionVocabFull : List String :=
  ["what", "how", "why", "when", "where", "which", "who", "could you",
   "can you", "would you", "do you", "have you", "will you"]

/-- Technical-vocabulary set of `analyzeTranscription`
(`server.js` line 995), a shorter list. -/
def technicalVocabShort : List String :=
  ["javascript", "react", "node", "python", "java", "database", "api",
   "system", "software", "code", "programming", "development", "framework",
   "library", "algorithm", "data", "server", "frontend", "backend",
   "fullstack", "git", "docker", "aws", "cloud", "testing", "debugging",
   "deployment"]

/-- Confidence-vocabulary set of `analyzeTranscription`
(`server.js` line 997). -/
def confidenceVocabShort : List String :=
  ["successfully", "achieved", "implemented", "developed", "managed",
   "created", "built", "delivered", "solved", "experience", "skilled",
   "accomplished", "responsible", "led", "improved", "designed"]

/-- Filler-vocabulary set of `analyzeTranscription`
(`server.js` line 999). -/
def fillerVocabShort : List String :=
  ["um", "uh", "like", "you know", "actually", "basically", "sort of",
   "kind of", "well", "so", "right", "okay"]

/-! ## Normalizer -/

/-- JavaScript `text.split(' ')` over the character list: split at every
single space character, keeping zero-length tokens; `"".split(' ')` is
`[""]`, a one-element list. -/
def splitSpaceAux (cur : List Char) : List Char → List (List Char)
  | [] => [cur.reverse]
  | c :: rest =>
    if c = ' ' then cur.reverse :: splitSpaceAux [] rest
    else splitSpaceAux (c :: cur) rest

/-- The token list of `text.split(' ')`. -/
def jsSplitSpace (text : String) : List (List Char) :=
  splitSpaceAux [] text.toList

/-- Word count of `analyzeRealSpeech` (`analyze.js` line 235) and
`analyzeRealTranscription` (`server.js` line 134):
`text.split(' ').length`. -/
def wordCountOf (text : String) : Nat :=
  (jsSplitSpace text).length

/-- Word count of `analyzeTranscription` (`server.js` line 956):
`text.split(' ').filter(w => w.length > 0).length`. -/
def wordCountFiltered (text : String) : Nat :=
  ((jsSplitSpace text).filter (fun w => w.length > 0)).length

/-- All feature counts of the full heuristic, as extracted at
`analyze.js` lines 235 and 275-283 (= `server.js` lines 134 and
174-182). -/
def extractFeaturesFull (text : String) : Features :=
  { wordCount := wordCountOf text
    technicalTerms := countVocab technicalVocabFull text
    confidenceWords := countVocab confidenceVocabFull text
    fillerWords := countVocab fillerVocabFull text
    specificMetrics := countMetrics text
    questionWords := countVocab questionVocabFull text }

/-! ## Scorer -/

/-- JavaScript `Math.round`: round half toward positive infinity. -/
def jsRound (q : ℚ) : ℤ :=
  ⌊q + 1/2⌋

/-- Pre-clamp rating of the full heuristic: the `rating` accumulation of
`analyze.js` lines 295-312 = `server.js` lines 194-211 (the two blocks
are verbatim identical).  The sequential `rating += x` statements are
rendered as one sum of guarded increments. -/
def preRatingFull (f : Features) (field : String) (text : String) : ℚ :=
  4
  + (if f.wordCount > 50 then 1 else 0)
  + (if f.wordCount > 100 then 1/2 else 0)
  + (if f.technicalTerms > 2 then 1 else 0)
  + (if f.technicalTerms > 5 then 1/2 else 0)
  + (if f.confidenceWords > 2 then 1 else 0)
  + (if f.confidenceWords > 4 then 1/2 else 0)
  + (if f.specificMetrics > 0 then 1 else 0)
  + (if f.specificMetrics > 2 then 1/2 else 0)
  + (if (f.fillerWords : ℚ) < (f.wordCount : ℚ) / 20 then 1/2 else 0)
  + (if f.questionWords > 0 then 1/2 else 0)
  + (if fieldContains field "senior" ∧ f.technicalTerms > 4 then 1/2 else 0)
  + (if fieldContains field "intern" ∧ f.confidenceWords > 1 then 1/2 else 0)
  + (if fieldContains field "java" ∧ lowerIncludes text "java" then 1/2 else 0)

/-- Final rating of the full heuristic (`analyze.js` line 314 =
`server.js` line 213):
`Math.min(9, Math.max(1, Math.round(rating * 2) / 2))`. -/
def computeRatingFull (f : Features) (field : String) (text : String) : ℚ :=
  min 9 (max 1 ((jsRound (preRatingFull f field text * 2) : ℚ) / 2))

/-- Pre-clamp rating of `analyzeTranscription` (`server.js` lines
1002-1008): base 5, fewer feature bonuses. -/
def preRatingSimple (f : Features) : ℚ :=
  5
  + (if f.wordCount > 50 then 1 else 0)
  + (if f.wordCount > 100 then 1/2 else 0)
  + (if f.technicalTerms > 2 then 1 else 0)
  + (if f.confidenceWords > 2 then 1/2 else 0)
  + (if (f.fillerWords : ℚ) < (f.wordCount : ℚ) / 20 then 1/2 else 0)

/-- Final rating of `analyzeTranscription` (`server.js` line 1010). -/
def computeRatingSimple (f : Features) : ℚ :=
  min 9 (max 1 ((jsRound (preRatingSimple f * 2) : ℚ) / 2))

/-! ## Timestamps -/

/-- Fallback value used where the JavaScript code would read a property
of an out-of-range index; the totality theorem for claim C6 shows it is
never reached. -/
def defaultSegment : Segment :=
  { start := 0, stop := 0, text := "" }

/-- Left-pad with zeros to two characters:
`seconds.toString().padStart(2, '0')`. -/
def padStart2Zero (s : String) : String :=
  String.mk (List.replicate (2 - s.length) '0') ++ s

/-- Timestamp formatting of `findFillerTimestamp` (`analyze.js` lines
514-516): minutes `Math.floor(start / 60)`, seconds
`Math.floor(start % 60)`.  For the non-negative start times of the data
model, the JavaScript `%` equals `start - 60 * ⌊start / 60⌋`. -/
def formatTime (start : ℚ) : String :=
  toString ⌊start / 60⌋ ++ ":" ++ padStart2Zero (toString ⌊start - 60 * ⌊start / 60⌋⌋)

/-- Helper `findFillerTimestamp` of `analyze.js` lines 508-517.  The
source indexes `segments[midPoint]` unguarded after the emptiness check;
`midPoint = ⌊length / 2⌋ < length` always holds there, so the `getD`
default is never used (claim C6). -/
def findFillerTimestamp (segments : List Segment) : String :=
  if segments.length = 0 then "1:15"
  else
    let midPoint := segments.length / 2
    let segment := (segments.get? midPoint).getD defaultSegment
    formatTime segment.start

/-- Variant of `findFillerTimestamp` returning `none` where the
JavaScript would read `start` of an `undefined` element. -/
def findFillerTimestampOpt (segments : List Segment) : Option String :=
  if segments.length = 0 then some "1:15"
  else (segments.get? (segments.length / 2)).map (fun seg => formatTime seg.start)

/-- Helper `findTimestampForIssue` of `server.js` lines 272-286:
`segments[midPoint] || segments[0]`, then a guard
`segment && segment.start !== undefined` (always satisfied on a
non-empty list of well-formed segments) before formatting. -/
def findTimestampForIssue (segments : List Segment) : String :=
  if segments.length = 0 then "1:15"
  else
    let midPoint := segments.length / 2
    let segment := (segments.get? midPoint).getD ((segments.get? 0).getD defaultSegment)
    formatTime segment.start

/-! ## Short-circuit templates -/

/-- The `wordCount < 5` template of `analyze.js` lines 240-255. -/
def noSpeechResultAnalyze : AnalysisResult :=
  { rating := 0
    mistakes := [⟨"0:05",
      "No meaningful speech detected - please speak clearly into the microphone"⟩]
    tips :=
      ["Ensure you are actually speaking during the recording",
       "Check microphone permissions and audio levels",
       "Speak clearly and at normal volume",
       "Record in a quiet environment"]
    summary :=
      "No speech content detected for analysis. Please record again with clear audio." }

/-- The `wordCount < 20` template of `analyze.js` lines 257-272. -/
def briefResultAnalyze (wordCount : Nat) : AnalysisResult :=
  { rating := 2
    mistakes := [⟨"0:10",
      "Response too brief - provide more detailed answers with specific examples"⟩]
    tips :=
      ["Elaborate on your experience with concrete examples",
       "Use the STAR method (Situation, Task, Action, Result)",
       "Aim for 1-2 minutes per response",
       "Include specific technologies and metrics"]
    summary := "Brief response detected (" ++ toString wordCount
      ++ " words). Expand your answers for better evaluation." }

/-- The `wordCount < 5` template of `server.js` lines 139-154. -/
def noSpeechResultServer : AnalysisResult :=
  { rating := 0
    mistakes := [⟨"0:05",
      "No meaningful speech detected - ensure microphone is working and speak clearly"⟩]
    tips :=
      ["Check microphone permissions in your browser",
       "Speak directly into the microphone during recording",
       "Record in a quiet environment without background noise",
       "Ensure you are actually speaking during the recording"]
    summary :=
      "No speech content detected for analysis. Please record again with clear audio." }

/-- The `wordCount < 20` template of `server.js` lines 156-171. -/
def briefResultServer (wordCount : Nat) : AnalysisResult :=
  { rating := 2
    mistakes := [⟨"0:10",
      "Response too brief - provide more detailed answers with specific examples"⟩]
    tips :=
      ["Elaborate on your experience with concrete examples",
       "Use the STAR method (Situation, Task, Action, Result)",
       "Aim for 1-2 minutes per response",
       "Include specific technologies and metrics in your answers"]
    summary := "Very brief response detected (" ++ toString wordCount
      ++ " words). Expand your answers for better evaluation." }

/-- The `wordCount < 5` template of `analyzeTranscription`
(`server.js` lines 960-975). -/
def noSpeechResultSimple : AnalysisResult :=
  { rating := 0
    mistakes := [⟨"0:05",
      "No speech detected - ensure microphone is working and speak clearly"⟩]
    tips :=
      ["Check microphone permissions in your browser",
       "Speak clearly into the microphone during recording",
       "Record in a quiet environment",
       "Ensure you are actually speaking during recording"]
    summary := "No speech content detected. Please record again with clear audio." }

/-- The `wordCount < 20` template of `analyzeTranscription`
(`server.js` lines 977-992). -/
def briefResultSimple (wordCount : Nat) : AnalysisResult :=
  { rating := 2
    mistakes := [⟨"0:10",
      "Response too brief - provide more detailed answers with examples"⟩]
    tips :=
      ["Use the STAR method (Situation, Task, Action, Result)",
       "Provide specific examples from your experience",
       "Aim for 1-2 minutes per response",
       "Include technical details relevant to the role"]
    summary := "Brief response (" ++ toString wordCount
      ++ " words). Expand your answers for better evaluation." }

/-! ## General branch of the full heuristic -/

/-- Decimal rendering of the non-negative half-integer ratings produced
by the scorers, as JavaScript template interpolation renders the
number (`4` or `4.5`). -/
def ratingToString (q : ℚ) : String :=
  if q.den = 1 then toString q.num else toString ⌊q⌋ ++ ".5"

/-- Text of the filler-word mistake (`analyze.js` lines 320-324 =
`server.js` lines 219-223), reporting
`Math.round(fillerWords / wordCount * 100)`. -/
def fillerMistakeText (fillerWords wordCount : Nat) : String :=
  "Reduce filler words ("
    ++ toString (jsRound ((fillerWords : ℚ) / (wordCount : ℚ) * 100))
    ++ "% of speech) - practice speaking more deliberately"

/-- The four non-filler mistake candidates of `analyze.js` lines
327-353 = `server.js` lines 226-252, in source order. -/
def restMistakesFull (f : Features) (field : String) : List Mistake :=
  (if f.specificMetrics = 0 ∧ f.wordCount > 30 then
    [⟨"1:30", "Include specific metrics and quantifiable achievements in your examples"⟩]
   else [])
  ++ (if f.technicalTerms < 2 ∧ f.wordCount > 30 then
    [⟨"2:00", "Use more " ++ field
      ++ "-specific technical terminology to demonstrate expertise"⟩]
   else [])
  ++ (if f.confidenceWords < 2 ∧ f.wordCount > 40 then
    [⟨"1:45", "Use more confident, achievement-oriented language when describing your experience"⟩]
   else [])
  ++ (if f.wordCount < 40 then
    [⟨"0:30", "Provide more comprehensive responses with detailed examples and context"⟩]
   else [])

/-- Tips of `analyze.js` lines 356-362. -/
def tipsAnalyze (f : Features) (field : String) : List String :=
  ["Real speech analysis: " ++ toString f.wordCount ++ " words, "
     ++ toString f.technicalTerms ++ " technical terms, "
     ++ toString f.confidenceWords ++ " confidence indicators",
   if f.technicalTerms > 3 then "Excellent technical vocabulary usage"
   else "Include more " ++ field ++ "-specific technical concepts and terminology",
   if f.confidenceWords > 2 then "Strong confident communication style detected"
   else "Practice using more achievement-focused language",
   if f.specificMetrics > 0 then "Good use of quantifiable results"
   else "Always include specific numbers and measurable outcomes",
   if (f.fillerWords : ℚ) < (f.wordCount : ℚ) / 25 then "Clear, fluent speech patterns"
   else "Practice reducing filler words for more professional delivery"]

/-- Summary of `analyze.js` line 368. -/
def summaryAnalyze (f : Features) (rating : ℚ) : String :=
  "Real speech transcription analysis: " ++ toString f.wordCount
    ++ " words analyzed. Technical terms: " ++ toString f.technicalTerms
    ++ ", Confidence indicators: " ++ toString f.confidenceWords
    ++ ", Filler words: " ++ toString f.fillerWords
    ++ ". Rating: " ++ ratingToString rating ++ "/10. "
    ++ (if rating ≥ 7 then
          "Strong interview performance with clear technical communication."
        else if rating ≥ 5 then
          "Good foundation with specific areas for improvement based on actual speech content."
        else
          "Focus on the identified areas to significantly enhance interview performance.")

/-- General (`wordCount ≥ 20`) branch of `analyzeRealSpeech`
(`analyze.js` lines 274-369). -/
def generalAnalysisAnalyze (transcription : Transcript) (field : String) :
    AnalysisResult :=
  let f := extractFeaturesFull transcription.text
  let rating := computeRatingFull f field transcription.text
  let mistakes :=
    (if (f.wordCount : ℚ) / 15 < (f.fillerWords : ℚ) then
      [⟨findFillerTimestamp transcription.segments,
        fillerMistakeText f.fillerWords f.wordCount⟩]
     else [])
    ++ restMistakesFull f field
  { rating := rating
    mistakes := mistakes.take 3
    tips := (tipsAnalyze f field).take 5
    summary := summaryAnalyze f rating }

/-- Variant of `generalAnalysisAnalyze` that returns `none` where the
JavaScript would read a property of an `undefined` array element. -/
def generalAnalysisAnalyzeOpt (transcription : Transcript) (field : String) :
    Option AnalysisResult :=
  let f := extractFeaturesFull transcription.text
  let rating := computeRatingFull f field transcription.text
  (if (f.wordCount : ℚ) / 15 < (f.fillerWords : ℚ) then
    (findFillerTimestampOpt transcription.segments).map
      (fun ts => [(⟨ts, fillerMistakeText f.fillerWords f.wordCount⟩ : Mistake)])
   else some []).map (fun fillerMistakes =>
    { rating := rating
      mistakes := (fillerMistakes ++ restMistakesFull f field).take 3
      tips := (tipsAnalyze f field).take 5
      summary := summaryAnalyze f rating })

/-- The composer `analyzeRealSpeech` of `src/api/analyze.js` lines
233-370. -/
def analyzeRealSpeech (transcription : Transcript) (field : String) :
    AnalysisResult :=
  if wordCountOf transcription.text < 5 then noSpeechResultAnalyze
  else if wordCountOf transcription.text < 20 then
    briefResultAnalyze (wordCountOf transcription.text)
  else generalAnalysisAnalyze transcription field

/-- Totality-checking variant of `analyzeRealSpeech`. -/
def analyzeRealSpeechOpt (transcription : Transcript) (field : String) :
    Option AnalysisResult :=
  if wordCountOf transcription.text < 5 then some noSpeechResultAnalyze
  else if wordCountOf transcription.text < 20 then
    some (briefResultAnalyze (wordCountOf transcription.text))
  else generalAnalysisAnalyzeOpt transcription field

/-- Tips of `server.js` lines 255-262 (six entries, later capped
at five). -/
def tipsServer (f : Features) (field : String) : List String :=
  ["Real speech analysis: " ++ toString f.wordCount
     ++ " words analyzed from your actual response",
   "Content includes " ++ toString f.technicalTerms ++ " technical terms and "
     ++ toString f.confidenceWords ++ " confidence indicators",
   if f.technicalTerms > 3 then "Excellent technical vocabulary usage detected"
   else "Include more " ++ field ++ "-specific technical concepts and terminology",
   if f.confidenceWords > 2 then "Strong confident communication style observed"
   else "Practice using more achievement-focused language",
   if f.specificMetrics > 0 then "Good use of quantifiable results in your response"
   else "Always include specific numbers and measurable outcomes",
   if (f.fillerWords : ℚ) < (f.wordCount : ℚ) / 25 then "Clear, fluent speech patterns detected"
   else "Practice reducing filler words for more professional delivery"]

/-- Summary of `server.js` line 268. -/
def summaryServer (f : Features) (rating : ℚ) : String :=
  "Real speech analysis of your " ++ toString f.wordCount
    ++ "-word response. Technical depth: " ++ toString f.technicalTerms
    ++ " terms, Confidence level: " ++ toString f.confidenceWords
    ++ " indicators, Speech clarity: " ++ toString f.fillerWords
    ++ " filler words. Overall rating: " ++ ratingToString rating ++ "/10. "
    ++ (if rating ≥ 7 then
          "Strong interview performance with clear technical communication based on your actual speech content."
        else if rating ≥ 5 then
          "Good foundation with specific areas for improvement identified from your real response."
        else
          "Focus on the recommended areas to significantly enhance your interview performance.")

/-- General (`wordCount ≥ 20`) branch of `analyzeRealTranscription`
(`server.js` lines 173-269). -/
def generalAnalysisServer (transcription : Transcript) (field : String) :
    AnalysisResult :=
  let f := extractFeaturesFull transcription.text
  let rating := computeRatingFull f field transcription.text
  let mistakes :=
    (if (f.wordCount : ℚ) / 15 < (f.fillerWords : ℚ) then
      [⟨findTimestampForIssue transcription.segments,
        fillerMistakeText f.fillerWords f.wordCount⟩]
     else [])
    ++ restMistakesFull f field
  { rating := rating
    mistakes := mistakes.take 3
    tips := (tipsServer f field).take 5
    summary := summaryServer f rating }

/-- The composer `analyzeRealTranscription` of `src/server.js` lines
132-270 (the `transcription.text || ''` of line 133 is the identity on
well-formed string-valued text). -/
def analyzeRealTranscription (transcription : Transcript) (field : String) :
    AnalysisResult :=
  if wordCountOf transcription.text < 5 then noSpeechResultServer
  else if wordCountOf transcription.text < 20 then
    briefResultServer (wordCountOf transcription.text)
  else generalAnalysisServer transcription field

/-! ## The simplified variant `analyzeTranscription` -/

/-- Feature counts of `analyzeTranscription` (`server.js` lines 956 and
995-999); it extracts no specific metrics and no question words. -/
def extractFeaturesSimple (text : String) : Features :=
  { wordCount := wordCountFiltered text
    technicalTerms := countVocab technicalVocabShort text
    confidenceWords := countVocab confidenceVocabShort text
    fillerWords := countVocab fillerVocabShort text
    specificMetrics := 0
    questionWords := 0 }

/-- General branch of `analyzeTranscription` (`server.js` lines
994-1043). -/
def generalAnalysisSimple (transcription : Transcript) (field : String) :
    AnalysisResult :=
  let f := extractFeaturesSimple transcription.text
  let rating := computeRatingSimple f
  let mistakes :=
    (if (f.wordCount : ℚ) / 15 < (f.fillerWords : ℚ) then
      [⟨"1:15", "Reduce filler words ("
         ++ toString (jsRound ((f.fillerWords : ℚ) / (f.wordCount : ℚ) * 100))
         ++ "%) - practice speaking more deliberately"⟩]
     else [])
    ++ (if f.technicalTerms < 2 then
      [⟨"1:30", "Include more " ++ field ++ "-specific technical terminology"⟩]
     else [])
    ++ (if f.wordCount < 50 then
      [⟨"0:30", "Provide more comprehensive responses with detailed examples"⟩]
     else [])
  { rating := rating
    mistakes := mistakes.take 3
    tips :=
      ["Real analysis: " ++ toString f.wordCount ++ " words, "
         ++ toString f.technicalTerms ++ " technical terms, "
         ++ toString f.confidenceWords ++ " confidence words",
       if f.technicalTerms > 3 then "Excellent technical vocabulary"
       else "Include more technical concepts",
       if f.confidenceWords > 2 then "Strong confident language"
       else "Use more achievement-focused language",
       "Based on your actual spoken content, not generic feedback"]
    summary := "Real speech analysis: " ++ toString f.wordCount
      ++ " words analyzed. Technical depth: " ++ toString f.technicalTerms
      ++ ", Confidence: " ++ toString f.confidenceWords
      ++ ". Rating: " ++ ratingToString rating
      ++ "/10 based on actual speech content." }

/-- The composer `analyzeTranscription` of `src/server.js` lines
954-1044. -/
def analyzeTranscription (transcription : Transcript) (field : String) :
    AnalysisResult :=
  if wordCountFiltered transcription.text < 5 then noSpeechResultSimple
  else if wordCountFiltered transcription.text < 20 then
    briefResultSimple (wordCountFiltered transcription.text)
  else generalAnalysisSimple transcription field

/-! ## Specification-side definitions

`specRuleRating` follows the wording of the specification (and of
claim C1), not the source code: base 4, the guarded increments as the
spec lists them, then clamp to `[1, 9]`, then round to the nearest
`0.5`.  It is compared with the source-derived `computeRatingFull`. -/

/-- Round to the nearest multiple of `0.5` (halves rounded up, as
JavaScript `Math.round` does on the doubled value). -/
def roundToNearestHalf (q : ℚ) : ℚ :=
  (⌊q * 2 + 1/2⌋ : ℚ) / 2

/-- The weighted rule of the specification, clamping to `[1, 9]` and then
rounding to the nearest `0.5`. -/
def specRuleRating (f : Features) (field : String) (text : String) : ℚ :=
  roundToNearestHalf (min 9 (max 1 (
    4
    + (if f.wordCount > 50 then 1 else 0)
    + (if f.wordCount > 100 then 1/2 else 0)
    + (if f.technicalTerms > 2 then 1 else 0)
    + (if f.technicalTerms > 5 then 1/2 else 0)
    + (if f.confidenceWords > 2 then 1 else 0)
    + (if f.confidenceWords > 4 then 1/2 else 0)
    + (if f.specificMetrics > 0 then 1 else 0)
    + (if f.specificMetrics > 2 then 1/2 else 0)
    + (if (f.fillerWords : ℚ) < (f.wordCount : ℚ) / 20 then 1/2 else 0)
    + (if f.questionWords > 0 then 1/2 else 0)
    + (if fieldContains field "senior" ∧ f.technicalTerms > 4 then 1/2 else 0)
    + (if fieldContains field "intern" ∧ f.confidenceWords > 1 then 1/2 else 0)
    + (if fieldContains field "java" ∧ lowerIncludes text "java" then 1/2 else 0))))

/-- A rational that is an integer multiple of `1/2`; every value taken by
the scorer accumulators. -/
def halfInt (q : ℚ) : Prop :=
  ∃ n : ℤ, q = n / 2

/-! ## Helper lemmas -/

theorem halfInt_add {a b : ℚ} (ha : halfInt a) (hb : halfInt b) :
    halfInt (a + b) := by
  obtain ⟨m, rfl⟩ := ha
  obtain ⟨n, rfl⟩ := hb
  exact ⟨m + n, by push_cast; ring⟩

theorem halfInt_ite (c : Prop) [Decidable c] {a b : ℚ} (ha : halfInt a)
    (hb : halfInt b) : halfInt (if c then a else b) := by
  split
  · exact ha
  · exact hb

theorem halfInt_max {a b : ℚ} (ha : halfInt a) (hb : halfInt b) :
    halfInt (max a b) := by
  rcases le_total a b with h | h
  · rw [max_eq_right h]; exact hb
  · rw [max_eq_left h]; exact ha

theorem halfInt_min {a b : ℚ} (ha : halfInt a) (hb : halfInt b) :
    halfInt (min a b) := by
  rcases le_total a b with h | h
  · rw [min_eq_left h]; exact ha
  · rw [min_eq_right h]; exact hb

theorem floor_intCast_add_half (n : ℤ) : ⌊(n : ℚ) + 1/2⌋ = n := by
  rw [Int.floor_eq_iff]
  constructor
  · norm_num
  · norm_num

theorem jsRound_of_halfInt {q : ℚ} (h : halfInt q) :
    ((jsRound (q * 2) : ℤ) : ℚ) = q * 2 := by
  obtain ⟨n, rfl⟩ := h
  have h2 : (n : ℚ) / 2 * 2 = (n : ℚ) := div_mul_cancel₀ _ two_ne_zero
  rw [h2]
  unfold jsRound
  rw [floor_intCast_add_half]

theorem roundToNearestHalf_of_halfInt {q : ℚ} (h : halfInt q) :
    roundToNearestHalf q = q := by
  obtain ⟨n, rfl⟩ := h
  unfold roundToNearestHalf
  have h2 : (n : ℚ) / 2 * 2 = (n : ℚ) := div_mul_cancel₀ _ two_ne_zero
  rw [h2, floor_intCast_add_half]

/-- On half-integer pre-ratings, the source order (round, then clamp) and
the specification order (clamp, then round) agree: both are the identity
composed with the clamp. -/
theorem clampRound_eq {q : ℚ} (h : halfInt q) :
    min 9 (max 1 ((jsRound (q * 2) : ℚ) / 2)) =
      roundToNearestHalf (min 9 (max 1 q)) := by
  have h1 : ((jsRound (q * 2) : ℚ)) / 2 = q := by
    rw [jsRound_of_halfInt h]
    ring
  rw [h1, roundToNearestHalf_of_halfInt
    (halfInt_min ⟨18, by norm_num⟩ (halfInt_max ⟨2, by norm_num⟩ h))]

theorem halfInt_four : halfInt (4 : ℚ) := ⟨8, by norm_num⟩

theorem halfInt_five : halfInt (5 : ℚ) := ⟨10, by norm_num⟩

theorem halfInt_one : halfInt (1 : ℚ) := ⟨2, by norm_num⟩

theorem halfInt_half : halfInt ((1 : ℚ) / 2) := ⟨1, rfl⟩

theorem halfInt_zero : halfInt (0 : ℚ) := ⟨0, by norm_num⟩

theorem halfInt_preRatingFull (f : Features) (field : String) (text : String) :
    halfInt (preRatingFull f field text) := by
  unfold preRatingFull
  repeat'
    first
    | apply halfInt_add
    | apply halfInt_ite
    | exact halfInt_four
    | exact halfInt_one
    | exact halfInt_half
    | exact halfInt_zero

theorem halfInt_preRatingSimple (f : Features) :
    halfInt (preRatingSimple f) := by
  unfold preRatingSimple
  repeat'
    first
    | apply halfInt_add
    | apply halfInt_ite
    | exact halfInt_five
    | exact halfInt_one
    | exact halfInt_half
    | exact halfInt_zero

theorem ite_nonneg_q (c : Prop) [Decidable c] {x : ℚ} (hx : 0 ≤ x) :
    0 ≤ if c then x else 0 := by
  split
  · exact hx
  · exact le_refl 0

/-! ## Branch and projection lemmas -/

theorem analyzeRealSpeech_general {t : Transcript} {field : String}
    (h : 20 ≤ wordCountOf t.text) :
    analyzeRealSpeech t field = generalAnalysisAnalyze t field := by
  unfold analyzeRealSpeech
  rw [if_neg (by omega), if_neg (by omega)]

theorem analyzeRealTranscription_general {t : Transcript} {field : String}
    (h : 20 ≤ wordCountOf t.text) :
    analyzeRealTranscription t field = generalAnalysisServer t field := by
  unfold analyzeRealTranscription
  rw [if_neg (by omega), if_neg (by omega)]

theorem analyzeTranscription_general {t : Transcript} {field : String}
    (h : 20 ≤ wordCountFiltered t.text) :
    analyzeTranscription t field = generalAnalysisSimple t field := by
  unfold analyzeTranscription
  rw [if_neg (by omega), if_neg (by omega)]

theorem generalAnalysisAnalyze_rating (t : Transcript) (field : String) :
    (generalAnalysisAnalyze t field).rating =
      computeRatingFull (extractFeaturesFull t.text) field t.text := rfl

theorem generalAnalysisServer_rating (t : Transcript) (field : String) :
    (generalAnalysisServer t field).rating =
      computeRatingFull (extractFeaturesFull t.text) field t.text := rfl

theorem generalAnalysisSimple_rating (t : Transcript) (field : String) :
    (generalAnalysisSimple t field).rating =
      computeRatingSimple (extractFeaturesSimple t.text) := rfl

/-- The scorer of the source equals the rule as the specification states it. -/
theorem computeRatingFull_eq_specRule (f : Features) (field text : String) :
    computeRatingFull f field text = specRuleRating f field text := by
  unfold computeRatingFull
  rw [clampRound_eq (halfInt_preRatingFull f field text)]
  rfl

/-! ## Claims -/

/-- C1: for every transcript with `wordCount ≥ 20` and every field
string, the rating returned by `analyze` (both the `analyze.js` copy and
the `analyzeRealTranscription` copy) equals the weighted-rule result of
the specification: base 4, the guarded increments, the three field
bonuses, then clamp to `[1, 9]` and round to the nearest `0.5`. -/
theorem claim_C1_rating_formula (t : Transcript) (field : String)
    (h : 20 ≤ wordCountOf t.text) :
    (analyzeRealSpeech t field).rating
        = specRuleRating (extractFeaturesFull t.text) field t.text
    ∧ (analyzeRealTranscription t field).rating
        = specRuleRating (extractFeaturesFull t.text) field t.text := by
  constructor
  · rw [analyzeRealSpeech_general h, generalAnalysisAnalyze_rating,
      computeRatingFull_eq_specRule]
  · rw [analyzeRealTranscription_general h, generalAnalysisServer_rating,
      computeRatingFull_eq_specRule]

/-- C1 witness: a concrete 20-word transcript. -/
theorem claim_C1_witness :
    20 ≤ wordCountOf "banana banana banana banana banana banana banana banana banana banana banana banana banana banana banana banana banana banana banana banana"
    ∧ ((analyzeRealSpeech ⟨"banana banana banana banana banana banana banana banana banana banana banana banana banana banana banana banana banana banana banana banana", []⟩ "java").rating
        = specRuleRating (extractFeaturesFull "banana banana banana banana banana banana banana banana banana banana banana banana banana banana banana banana banana banana banana banana") "java" "banana banana banana banana banana banana banana banana banana banana banana banana banana banana banana banana banana banana banana banana"
      ∧ (analyzeRealTranscription ⟨"banana banana banana banana banana banana banana banana banana banana banana banana banana banana banana banana banana banana banana banana", []⟩ "java").rating
        = specRuleRating (extractFeaturesFull "banana banana banana banana banana banana banana banana banana banana banana banana banana banana banana banana banana banana banana banana") "java" "banana banana banana banana banana banana banana banana banana banana banana banana banana banana banana banana banana banana banana banana") :=
  ⟨by decide, claim_C1_rating_formula _ "java" (by decide)⟩

/-- C2: for every transcript whose word count is below 5 and every
field, `analyze` returns the fixed no-speech template — rating 0, one
fixed mistake, four fixed tips, a fixed summary — independent of the
field (shown by equality with a constant). -/
theorem claim_C2_no_speech_template (t : Transcript) (field : String)
    (h : wordCountOf t.text < 5) :
    analyzeRealSpeech t field = noSpeechResultAnalyze
    ∧ analyzeRealTranscription t field = noSpeechResultServer
    ∧ noSpeechResultAnalyze.rating = 0
    ∧ noSpeechResultAnalyze.mistakes.length = 1
    ∧ noSpeechResultAnalyze.tips.length = 4
    ∧ noSpeechResultServer.rating = 0
    ∧ noSpeechResultServer.mistakes.length = 1
    ∧ noSpeechResultServer.tips.length = 4 := by
  refine ⟨?_, ?_, rfl, rfl, rfl, rfl, rfl, rfl⟩
  · unfold analyzeRealSpeech
    rw [if_pos h]
  · unfold analyzeRealTranscription
    rw [if_pos h]

/-- C2 witness: the empty transcript (word count 1 under the split of the source) lands in the no-speech branch for any field. -/
theorem claim_C2_witness :
    wordCountOf "" < 5
    ∧ (analyzeRealSpeech ⟨"", []⟩ "software" = noSpeechResultAnalyze
      ∧ analyzeRealTranscription ⟨"", []⟩ "software" = noSpeechResultServer
      ∧ noSpeechResultAnalyze.rating = 0
      ∧ noSpeechResultAnalyze.mistakes.length = 1
      ∧ noSpeechResultAnalyze.tips.length = 4
      ∧ noSpeechResultServer.rating = 0
      ∧ noSpeechResultServer.mistakes.length = 1
      ∧ noSpeechResultServer.tips.length = 4) :=
  ⟨by decide, claim_C2_no_speech_template ⟨"", []⟩ "software" (by decide)⟩

/-- The executable substring test agrees with `List.IsInfix`. -/
theorem containsSub_iff {n h : List Char} :
    containsSub n h = true ↔ n <:+: h := by
  unfold containsSub
  rw [List.any_eq_true]
  constructor
  · rintro ⟨t, ht, hp⟩
    rw [List.mem_tails] at ht
    rw [List.isPrefixOf_iff_prefix] at hp
    exact List.infix_iff_prefix_suffix.mpr ⟨t, hp, ht⟩
  · intro hinf
    obtain ⟨t, hp, ht⟩ := List.infix_iff_prefix_suffix.mp hinf
    exact ⟨t, (List.mem_tails _ _).mpr ht, List.isPrefixOf_iff_prefix.mpr hp⟩

/-- C3 counterexample: on a concrete 10-word transcript the single
mistake of the brief-response branch does NOT contain the literal word
count — in either copy (the two copies share the mistake string); the
word count appears only in the summary. -/
theorem claim_C3_counterexample :
    analyzeRealSpeech ⟨"w w w w w w w w w w", []⟩ "software" = briefResultAnalyze 10
    ∧ analyzeRealTranscription ⟨"w w w w w w w w w w", []⟩ "software" = briefResultServer 10
    ∧ (briefResultAnalyze 10).mistakes.map Mistake.text
        = ["Response too brief - provide more detailed answers with specific examples"]
    ∧ (briefResultServer 10).mistakes.map Mistake.text
        = ["Response too brief - provide more detailed answers with specific examples"]
    ∧ containsSub (toString (10 : Nat)).toList
        "Response too brief - provide more detailed answers with specific examples".toList
        = false :=
  ⟨by decide, by decide, by decide, by decide, by decide⟩

/-- C3 (amended): for every transcript with `5 ≤ wordCount < 20` and
every field, `analyze` (both cited copies) returns rating exactly 2,
exactly one mistake with a fixed text (not mentioning the word count),
four fixed tips, and a summary interpolating the word count. -/
theorem claim_C3_brief_template (t : Transcript) (field : String)
    (h5 : 5 ≤ wordCountOf t.text) (h20 : wordCountOf t.text < 20) :
    analyzeRealSpeech t field = briefResultAnalyze (wordCountOf t.text)
    ∧ (briefResultAnalyze (wordCountOf t.text)).rating = 2
    ∧ (briefResultAnalyze (wordCountOf t.text)).mistakes
        = [⟨"0:10", "Response too brief - provide more detailed answers with specific examples"⟩]
    ∧ (briefResultAnalyze (wordCountOf t.text)).tips.length = 4
    ∧ containsSub (toString (wordCountOf t.text)).toList
        (briefResultAnalyze (wordCountOf t.text)).summary.toList = true
    ∧ analyzeRealTranscription t field = briefResultServer (wordCountOf t.text)
    ∧ (briefResultServer (wordCountOf t.text)).rating = 2
    ∧ (briefResultServer (wordCountOf t.text)).mistakes
        = [⟨"0:10", "Response too brief - provide more detailed answers with specific examples"⟩]
    ∧ (briefResultServer (wordCountOf t.text)).tips.length = 4
    ∧ containsSub (toString (wordCountOf t.text)).toList
        (briefResultServer (wordCountOf t.text)).summary.toList = true := by
  refine ⟨?_, rfl, rfl, rfl, ?_, ?_, rfl, rfl, rfl, ?_⟩
  · unfold analyzeRealSpeech
    rw [if_neg (by omega), if_pos h20]
  · rw [containsSub_iff]
    show (toString (wordCountOf t.text)).toList <:+:
      ("Brief response detected (" ++ toString (wordCountOf t.text)
        ++ " words). Expand your answers for better evaluation.").toList
    refine ⟨"Brief response detected (".toList,
      " words). Expand your answers for better evaluation.".toList, ?_⟩
    simp [String.toList, String.data_append]
  · unfold analyzeRealTranscription
    rw [if_neg (by omega), if_pos h20]
  · rw [containsSub_iff]
    show (toString (wordCountOf t.text)).toList <:+:
      ("Very brief response detected (" ++ toString (wordCountOf t.text)
        ++ " words). Expand your answers for better evaluation.").toList
    refine ⟨"Very brief response detected (".toList,
      " words). Expand your answers for better evaluation.".toList, ?_⟩
    simp [String.toList, String.data_append]

/-- C3 witness: a concrete 10-word transcript, exercising both copies. -/
theorem claim_C3_witness :
    (5 ≤ wordCountOf "w w w w w w w w w w" ∧ wordCountOf "w w w w w w w w w w" < 20)
    ∧ (analyzeRealSpeech ⟨"w w w w w w w w w w", []⟩ "intern"
          = briefResultAnalyze (wordCountOf "w w w w w w w w w w")
      ∧ (briefResultAnalyze (wordCountOf "w w w w w w w w w w")).rating = 2
      ∧ (briefResultAnalyze (wordCountOf "w w w w w w w w w w")).mistakes
          = [⟨"0:10", "Response too brief - provide more detailed answers with specific examples"⟩]
      ∧ (briefResultAnalyze (wordCountOf "w w w w w w w w w w")).tips.length = 4
      ∧ containsSub (toString (wordCountOf "w w w w w w w w w w")).toList
          (briefResultAnalyze (wordCountOf "w w w w w w w w w w")).summary.toList = true
      ∧ analyzeRealTranscription ⟨"w w w w w w w w w w", []⟩ "intern"
          = briefResultServer (wordCountOf "w w w w w w w w w w")
      ∧ (briefResultServer (wordCountOf "w w w w w w w w w w")).rating = 2
      ∧ (briefResultServer (wordCountOf "w w w w w w w w w w")).mistakes
          = [⟨"0:10", "Response too brief - provide more detailed answers with specific examples"⟩]
      ∧ (briefResultServer (wordCountOf "w w w w w w w w w w")).tips.length = 4
      ∧ containsSub (toString (wordCountOf "w w w w w w w w w w")).toList
          (briefResultServer (wordCountOf "w w w w w w w w w w")).summary.toList = true) :=
  ⟨⟨by decide, by decide⟩,
    claim_C3_brief_template ⟨"w w w w w w w w w w", []⟩ "intern" (by decide) (by decide)⟩

/-- C4 counterexample: the `analyze.js` normalizer does not discard
zero-length tokens — the empty text yields word count 1, not 0. -/
theorem claim_C4_counterexample :
    wordCountOf "" = 1 ∧ wordCountOf "" ≠ 0 :=
  ⟨by decide, by decide⟩

/-- C4 (amended): the normalizer splits on single space characters (not
on runs of whitespace).  The `analyze.js`/`analyzeRealTranscription` copy
keeps zero-length tokens, so the empty text yields word count 1 (still
routed to the no-speech branch); the `analyzeTranscription` copy discards
zero-length tokens and yields 0.  On the empty text every other feature
count is 0 and no exception occurs (the composers return the no-speech
template). -/
theorem claim_C4_normalizer :
    wordCountOf "" = 1
    ∧ wordCountFiltered "" = 0
    ∧ wordCountOf "a  b" = 3
    ∧ wordCountFiltered "a  b" = 2
    ∧ wordCountOf (String.mk ['a', '\t', 'b']) = 1
    ∧ countVocab technicalVocabFull "" = 0
    ∧ countVocab confidenceVocabFull "" = 0
    ∧ countVocab fillerVocabFull "" = 0
    ∧ countMetrics "" = 0
    ∧ countVocab questionVocabFull "" = 0
    ∧ analyzeRealSpeech ⟨"", []⟩ "software" = noSpeechResultAnalyze
    ∧ analyzeRealTranscription ⟨"", []⟩ "software" = noSpeechResultServer
    ∧ analyzeTranscription ⟨"", []⟩ "software" = noSpeechResultSimple := by
  refine ⟨?_, ?_, ?_, ?_, ?_, ?_, ?_, ?_, ?_, ?_, ?_, ?_, ?_⟩ <;> decide

/-- C5: for every input transcript (including the degenerate
short-circuit branches) and every field string, the result satisfies
`mistakes.length ≤ 3` and `tips.length ≤ 5`; shown for all three copies
of the heuristic. -/
theorem claim_C5_output_caps (t : Transcript) (field : String) :
    (analyzeRealSpeech t field).mistakes.length ≤ 3
    ∧ (analyzeRealSpeech t field).tips.length ≤ 5
    ∧ (analyzeRealTranscription t field).mistakes.length ≤ 3
    ∧ (analyzeRealTranscription t field).tips.length ≤ 5
    ∧ (analyzeTranscription t field).mistakes.length ≤ 3
    ∧ (analyzeTranscription t field).tips.length ≤ 5 := by
  unfold analyzeRealSpeech analyzeRealTranscription analyzeTranscription
  refine ⟨?_, ?_, ?_, ?_, ?_, ?_⟩ <;>
    split_ifs <;>
      simp [generalAnalysisAnalyze, generalAnalysisServer, generalAnalysisSimple,
        noSpeechResultAnalyze, briefResultAnalyze, noSpeechResultServer,
        briefResultServer, noSpeechResultSimple, briefResultSimple,
        tipsAnalyze, tipsServer, List.length_take]

/-- The `Option`-valued filler-timestamp helper always succeeds: after
the emptiness guard, the midpoint index is in range. -/
theorem findFillerTimestampOpt_eq (segments : List Segment) :
    findFillerTimestampOpt segments = some (findFillerTimestamp segments) := by
  unfold findFillerTimestampOpt findFillerTimestamp
  split_ifs with h
  · rfl
  · have hlt : segments.length / 2 < segments.length :=
      Nat.div_lt_self (Nat.pos_of_ne_zero h) one_lt_two
    simp only [List.get?_eq_get hlt, Option.map_some', Option.getD_some]

theorem computeRatingFull_nonneg (f : Features) (field text : String) :
    0 ≤ computeRatingFull f field text := by
  unfold computeRatingFull
  refine le_min (by norm_num) ?_
  exact le_trans (by norm_num) (le_max_left 1 _)

theorem computeRatingFull_le_nine (f : Features) (field text : String) :
    computeRatingFull f field text ≤ 9 :=
  min_le_left _ _

/-- C6: for every well-formed transcript and every field, analyze is
total: the variant that returns `none` wherever the JavaScript would
dereference an `undefined` array element always returns `some` of the
result of the total embedding, and the produced rating is a number within
`[0, 9]` (for both duplicated copies). -/
theorem claim_C6_totality (t : Transcript) (field : String) :
    analyzeRealSpeechOpt t field = some (analyzeRealSpeech t field)
    ∧ 0 ≤ (analyzeRealSpeech t field).rating
    ∧ (analyzeRealSpeech t field).rating ≤ 9
    ∧ 0 ≤ (analyzeRealTranscription t field).rating
    ∧ (analyzeRealTranscription t field).rating ≤ 9 := by
  refine ⟨?_, ?_, ?_, ?_, ?_⟩
  · unfold analyzeRealSpeechOpt analyzeRealSpeech
    split_ifs
    · rfl
    · rfl
    · unfold generalAnalysisAnalyzeOpt generalAnalysisAnalyze
      rw [findFillerTimestampOpt_eq]
      dsimp only
      split_ifs <;> rfl
  · unfold analyzeRealSpeech
    split_ifs
    · norm_num [noSpeechResultAnalyze]
    · norm_num [briefResultAnalyze]
    · rw [generalAnalysisAnalyze_rating]
      exact computeRatingFull_nonneg _ _ _
  · unfold analyzeRealSpeech
    split_ifs
    · norm_num [noSpeechResultAnalyze]
    · norm_num [briefResultAnalyze]
    · rw [generalAnalysisAnalyze_rating]
      exact computeRatingFull_le_nine _ _ _
  · unfold analyzeRealTranscription
    split_ifs
    · norm_num [noSpeechResultServer]
    · norm_num [briefResultServer]
    · rw [generalAnalysisServer_rating]
      exact computeRatingFull_nonneg _ _ _
  · unfold analyzeRealTranscription
    split_ifs
    · norm_num [noSpeechResultServer]
    · norm_num [briefResultServer]
    · rw [generalAnalysisServer_rating]
      exact computeRatingFull_le_nine _ _ _

/-- C7: whenever `fillerWordCount > wordCount / 15` (with
`wordCount ≥ 20`), the emitted filler mistake comes first and its
timestamp is `findFillerTimestamp` of the segments: exactly `"1:15"`
when the segment list is empty, and otherwise the start time of the
midpoint segment rendered by `formatTime` (minutes, colon, zero-padded
seconds). -/
theorem claim_C7_filler_timestamp (t : Transcript) (field : String)
    (h20 : 20 ≤ wordCountOf t.text)
    (hf : (wordCountOf t.text : ℚ) / 15 < (countVocab fillerVocabFull t.text : ℚ)) :
    (analyzeRealSpeech t field).mistakes.head?.map Mistake.timestamp
        = some (findFillerTimestamp t.segments)
    ∧ (t.segments = [] → findFillerTimestamp t.segments = "1:15")
    ∧ (∀ seg : Segment, t.segments.get? (t.segments.length / 2) = some seg →
        findFillerTimestamp t.segments = formatTime seg.start) := by
  refine ⟨?_, ?_, ?_⟩
  · rw [analyzeRealSpeech_general h20]
    unfold generalAnalysisAnalyze
    dsimp only [extractFeaturesFull]
    rw [if_pos hf]
    rfl
  · intro hseg
    rw [hseg]
    rfl
  · intro seg hseg
    unfold findFillerTimestamp
    have hne : t.segments.length ≠ 0 := by
      intro h0
      rw [List.get?_eq_none.mpr (by omega)] at hseg
      exact Option.noConfusion hseg
    rw [if_neg hne]
    dsimp only
    rw [hseg]
    rfl

/-- C7 witness: twenty filler words with an empty segment list land in
the filler branch with timestamp `"1:15"`. -/
theorem claim_C7_witness :
    (20 ≤ wordCountOf "um um um um um um um um um um um um um um um um um um um um"
      ∧ (wordCountOf "um um um um um um um um um um um um um um um um um um um um" : ℚ) / 15
          < (countVocab fillerVocabFull "um um um um um um um um um um um um um um um um um um um um" : ℚ))
    ∧ ((analyzeRealSpeech ⟨"um um um um um um um um um um um um um um um um um um um um", []⟩ "software").mistakes.head?.map Mistake.timestamp
        = some (findFillerTimestamp ([] : List Segment))
      ∧ (([] : List Segment) = [] → findFillerTimestamp ([] : List Segment) = "1:15")
      ∧ (∀ seg : Segment, ([] : List Segment).get? (([] : List Segment).length / 2) = some seg →
          findFillerTimestamp ([] : List Segment) = formatTime seg.start)) := by
  have h20 : 20 ≤ wordCountOf "um um um um um um um um um um um um um um um um um um um um" := by
    decide
  have hf : (wordCountOf "um um um um um um um um um um um um um um um um um um um um" : ℚ) / 15
      < (countVocab fillerVocabFull "um um um um um um um um um um um um um um um um um um um um" : ℚ) := by
    rw [show wordCountOf "um um um um um um um um um um um um um um um um um um um um" = 20 from by decide,
      show countVocab fillerVocabFull "um um um um um um um um um um um um um um um um um um um um" = 20 from by decide]
    norm_num
  exact ⟨⟨h20, hf⟩,
    claim_C7_filler_timestamp ⟨"um um um um um um um um um um um um um um um um um um um um", []⟩
      "software" h20 hf⟩

/-- C8: holding the field, the text and every other feature fixed (with
`wordCount ≥ 20`), raising `technicalTermCount` from 0 to 3 never
decreases the rating computed by the scorer. -/
theorem claim_C8_monotone_technical (wc cw fw sm qw : Nat) (field text : String)
    (_h : 20 ≤ wc) :
    computeRatingFull ⟨wc, 0, cw, fw, sm, qw⟩ field text
      ≤ computeRatingFull ⟨wc, 3, cw, fw, sm, qw⟩ field text := by
  have hpre : preRatingFull ⟨wc, 0, cw, fw, sm, qw⟩ field text
      ≤ preRatingFull ⟨wc, 3, cw, fw, sm, qw⟩ field text := by
    unfold preRatingFull
    dsimp only
    rw [if_neg (by omega : ¬ (0 : Nat) > 2), if_neg (by omega : ¬ (0 : Nat) > 5),
      if_pos (by omega : (3 : Nat) > 2), if_neg (by omega : ¬ (3 : Nat) > 5),
      if_neg (fun hh : fieldContains field "senior" ∧ (0 : Nat) > 4 =>
        absurd hh.2 (by omega)),
      if_neg (fun hh : fieldContains field "senior" ∧ (3 : Nat) > 4 =>
        absurd hh.2 (by omega))]
    linarith
  unfold computeRatingFull
  refine min_le_min le_rfl (max_le_max le_rfl ?_)
  have hfl : jsRound (preRatingFull ⟨wc, 0, cw, fw, sm, qw⟩ field text * 2)
      ≤ jsRound (preRatingFull ⟨wc, 3, cw, fw, sm, qw⟩ field text * 2) :=
    Int.floor_le_floor (by linarith)
  exact div_le_div_of_nonneg_right (by exact_mod_cast hfl) (by norm_num)

/-- C8 witness: a concrete feature vector with twenty words. -/
theorem claim_C8_witness :
    20 ≤ 20
    ∧ computeRatingFull ⟨20, 0, 0, 0, 0, 0⟩ "software" "x"
        ≤ computeRatingFull ⟨20, 3, 0, 0, 0, 0⟩ "software" "x" :=
  ⟨by decide, claim_C8_monotone_technical 20 0 0 0 0 "software" "x" (by decide)⟩

/-- Evaluation helper: the clamp-and-round wrapper is the identity on a
half-integer already inside `[1, 9]`. -/
theorem computeRating_wrap_eval {p : ℚ} (n : ℤ) (hp : p = (n : ℚ) / 2)
    (h1 : (1 : ℚ) ≤ p) (h9 : p ≤ 9) :
    min 9 (max 1 ((jsRound (p * 2) : ℚ) / 2)) = p := by
  have hd : ((jsRound (p * 2) : ℚ)) / 2 = p := by
    rw [jsRound_of_halfInt ⟨n, hp⟩]
    ring
  rw [hd, max_eq_right h1, min_eq_right h9]

/-- Evaluation of the full scorer on twenty plain words (all other
features zero, no field bonus applicable). -/
theorem computeRatingFull_plain (field text : String)
    (hj : fieldContains field "java" = false) :
    computeRatingFull ⟨20, 0, 0, 0, 0, 0⟩ field text = 9 / 2 := by
  have hpre : preRatingFull ⟨20, 0, 0, 0, 0, 0⟩ field text = 9 / 2 := by
    unfold preRatingFull
    norm_num [hj]
  unfold computeRatingFull
  rw [hpre]
  exact computeRating_wrap_eval 9 (by norm_num) (by norm_num) (by norm_num)

/-- Evaluation of the simplified scorer on twenty plain words. -/
theorem computeRatingSimple_plain :
    computeRatingSimple ⟨20, 0, 0, 0, 0, 0⟩ = 11 / 2 := by
  have hpre : preRatingSimple ⟨20, 0, 0, 0, 0, 0⟩ = 11 / 2 := by
    unfold preRatingSimple
    norm_num
  unfold computeRatingSimple
  rw [hpre]
  exact computeRating_wrap_eval 11 (by norm_num) (by norm_num) (by norm_num)

/-- C9 counterexample: on a twenty-word transcript of plain words the
`analyze.js` scorer rates `4.5` (base 4 plus the clear-speech bonus)
while `analyzeTranscription` in `server.js` rates `5.5` (base 5 plus the
same bonus), so the three copies are not one design. -/
theorem claim_C9_counterexample :
    (analyzeRealSpeech ⟨"banana banana banana banana banana banana banana banana banana banana banana banana banana banana banana banana banana banana banana banana", []⟩ "software").rating = 9 / 2
    ∧ (analyzeTranscription ⟨"banana banana banana banana banana banana banana banana banana banana banana banana banana banana banana banana banana banana banana banana", []⟩ "software").rating = 11 / 2
    ∧ (analyzeRealSpeech ⟨"banana banana banana banana banana banana banana banana banana banana banana banana banana banana banana banana banana banana banana banana", []⟩ "software").rating
        ≠ (analyzeTranscription ⟨"banana banana banana banana banana banana banana banana banana banana banana banana banana banana banana banana banana banana banana banana", []⟩ "software").rating := by
  have h1 : (analyzeRealSpeech ⟨"banana banana banana banana banana banana banana banana banana banana banana banana banana banana banana banana banana banana banana banana", []⟩ "software").rating = 9 / 2 := by
    rw [analyzeRealSpeech_general (by decide), generalAnalysisAnalyze_rating]
    dsimp only
    rw [show extractFeaturesFull "banana banana banana banana banana banana banana banana banana banana banana banana banana banana banana banana banana banana banana banana" = ⟨20, 0, 0, 0, 0, 0⟩ from by decide]
    exact computeRatingFull_plain "software" _ (by decide)
  have h2 : (analyzeTranscription ⟨"banana banana banana banana banana banana banana banana banana banana banana banana banana banana banana banana banana banana banana banana", []⟩ "software").rating = 11 / 2 := by
    rw [analyzeTranscription_general (by decide), generalAnalysisSimple_rating]
    dsimp only
    rw [show extractFeaturesSimple "banana banana banana banana banana banana banana banana banana banana banana banana banana banana banana banana banana banana banana banana" = ⟨20, 0, 0, 0, 0, 0⟩ from by decide]
    exact computeRatingSimple_plain
  refine ⟨h1, h2, ?_⟩
  rw [h1, h2]
  norm_num

/-- C9 (amended): the scorer embedded in `src/api/analyze.js` and
`analyzeRealTranscription` in `src/server.js` are one design — equal
ratings for every transcript and field — but `analyzeTranscription` in
`src/server.js` is a different design (base 5, fewer feature bonuses)
whose ratings differ. -/
theorem claim_C9_two_copies_agree (t : Transcript) (field : String) :
    (analyzeRealSpeech t field).rating = (analyzeRealTranscription t field).rating := by
  unfold analyzeRealSpeech analyzeRealTranscription
  split_ifs <;> rfl

theorem four_le_preRatingFull (f : Features) (field text : String) :
    (4 : ℚ) ≤ preRatingFull f field text := by
  unfold preRatingFull
  refine le_add_of_le_of_nonneg ?_ (ite_nonneg_q _ (by norm_num))
  refine le_add_of_le_of_nonneg ?_ (ite_nonneg_q _ (by norm_num))
  refine le_add_of_le_of_nonneg ?_ (ite_nonneg_q _ (by norm_num))
  refine le_add_of_le_of_nonneg ?_ (ite_nonneg_q _ (by norm_num))
  refine le_add_of_le_of_nonneg ?_ (ite_nonneg_q _ (by norm_num))
  refine le_add_of_le_of_nonneg ?_ (ite_nonneg_q _ (by norm_num))
  refine le_add_of_le_of_nonneg ?_ (ite_nonneg_q _ (by norm_num))
  refine le_add_of_le_of_nonneg ?_ (ite_nonneg_q _ (by norm_num))
  refine le_add_of_le_of_nonneg ?_ (ite_nonneg_q _ (by norm_num))
  refine le_add_of_le_of_nonneg ?_ (ite_nonneg_q _ (by norm_num))
  refine le_add_of_le_of_nonneg ?_ (ite_nonneg_q _ (by norm_num))
  refine le_add_of_le_of_nonneg ?_ (ite_nonneg_q _ (by norm_num))
  refine le_add_of_le_of_nonneg ?_ (ite_nonneg_q _ (by norm_num))
  exact le_refl 4

/-- C10: for every transcript with `wordCount ≥ 20` and every field, the
computed rating is at least 4 (in both duplicated copies): the general
branch only adds non-negative increments to its base of 4 before
clamping, so ratings below 4 never occur there. -/
theorem claim_C10_general_lower_bound (t : Transcript) (field : String)
    (h : 20 ≤ wordCountOf t.text) :
    4 ≤ (analyzeRealSpeech t field).rating
    ∧ 4 ≤ (analyzeRealTranscription t field).rating := by
  have key : (4 : ℚ) ≤ computeRatingFull (extractFeaturesFull t.text) field t.text := by
    have hpre := four_le_preRatingFull (extractFeaturesFull t.text) field t.text
    unfold computeRatingFull
    have h8 : (8 : ℤ) ≤ jsRound (preRatingFull (extractFeaturesFull t.text) field t.text * 2) := by
      unfold jsRound
      apply Int.le_floor.mpr
      push_cast
      linarith
    have h4 : (4 : ℚ) ≤
        ((jsRound (preRatingFull (extractFeaturesFull t.text) field t.text * 2) : ℤ) : ℚ) / 2 := by
      have h8q : ((8 : ℤ) : ℚ) ≤
          ((jsRound (preRatingFull (extractFeaturesFull t.text) field t.text * 2) : ℤ) : ℚ) :=
        Int.cast_le.mpr h8
      push_cast at h8q
      linarith
    exact le_min (by norm_num) (le_trans h4 (le_max_right 1 _))
  constructor
  · rw [analyzeRealSpeech_general h, generalAnalysisAnalyze_rating]
    exact key
  · rw [analyzeRealTranscription_general h, generalAnalysisServer_rating]
    exact key

/-- C10 witness: a concrete twenty-word transcript. -/
theorem claim_C10_witness :
    20 ≤ wordCountOf "banana banana banana banana banana banana banana banana banana banana banana banana banana banana banana banana banana banana banana banana"
    ∧ (4 ≤ (analyzeRealSpeech ⟨"banana banana banana banana banana banana banana banana banana banana banana banana banana banana banana banana banana banana banana banana", []⟩ "software").rating
      ∧ 4 ≤ (analyzeRealTranscription ⟨"banana banana banana banana banana banana banana banana banana banana banana banana banana banana banana banana banana banana banana banana", []⟩ "software").rating) :=
  ⟨by decide, claim_C10_general_lower_bound _ "software" (by decide)⟩

end InterviewLabs
